import Mathlib

/-!
Shallow embedding of the two-node thermoregulation model of the
jsthermalcomfort repository (src/src/models/two_nodes.js), with theorems
checking the natural-language specification against the code.

Numbers are modelled as real numbers; JavaScript transcendental calls
(Math.exp, Math.pow with non-integer exponent) become Real.exp and
Real.rpow.  Fallible control flow (throw) becomes the Except monad.
JavaScript `undefined` produced by reading an absent object field is
modelled with Option, and the JS rule that every comparison with
undefined is false is written out at the single place it matters
(the skin-blood-flow upper clamp).
-/

namespace TwoNodesModel

noncomputable section

open Real

/-- Error outcomes of a two_nodes call: the convergence throw
(`throw new Error("Max iterations exceeded")`) of the clothing-temperature
loop, and the TypeError raised by the assignment to the `const eComfort`. -/
inductive JsError where
  | convergence : JsError
  | typeError : JsError
deriving DecidableEq

/-- Modelled from the spec: the external collaborator `p_sat_torr(tdb)`,
the saturation vapor pressure lookup (its source file is not part of the
provided sources; the spec gives the saturated-vapor-pressure formula
exp(18.6686 - 4030.183/(t + 235)) used throughout the model). -/
def p_sat_torr (tdb : ℝ) : ℝ :=
  Real.exp (18.6686 - 4030.183 / (tdb + 235))

/-- Source: `round(number, precision)` from src/utilities/utilities.js
(in this source drop the file appears as src/unnamed/part_000, line 219):
`const smudge = 10 ** precision; return Math.round(number * smudge) / smudge;`.
JS `Math.round` rounds ties toward +infinity (round half up), which is
Mathlib's `round : ℝ → ℤ`. -/
def roundDec (precision : ℕ) (x : ℝ) : ℝ :=
  let smudge : ℝ := 10 ^ precision
  (round (x * smudge) : ℤ) / smudge

/-- Source: `roundArray(array, precision)` in two_nodes.js. -/
def roundArray (a : List ℝ) (precision : ℕ) : List ℝ :=
  a.map (roundDec precision)

/-- Source: `cal_vapor_pressure(tdb, rh)` in two_nodes.js. -/
def cal_vapor_pressure (tdb rh : ℝ) : ℝ :=
  rh * p_sat_torr tdb / 100

/-- Source: `fill_array(newArray, tdbArray)` in two_nodes.js: broadcast an
under-length array to the required length by repeating its first element. -/
def fill_array {α β : Type} [Inhabited α] (newArray : List α) (tdbArray : List β) : List α :=
  if newArray.length < tdbArray.length then
    List.replicate tdbArray.length newArray.headI
  else newArray

-- Module-level constants of two_nodes.js.
def kClo : ℝ := 0.25
def bodyWeight : ℝ := 70
def metFactor : ℝ := 58.2
def sbc : ℝ := 0.000000056697
def cSw : ℝ := 170
def cDil : ℝ := 120
def cStr : ℝ := 0.5
def tempSkinNeutral : ℝ := 33.7
def tempCoreNeutral : ℝ := 36.8
def skinBloodFlowNeutral : ℝ := 6.3

/-- The kwargs object as read by `calculate_two_nodes`.  The four documented
fields carry the defaults of `defaults_kwargs`.  The field
`max_skin_blood_flow` is also read by `calculate_two_nodes` (in the blood
flow clamp) although it is not part of the documented options and is never
put into the object by `two_nodes` or `two_nodes_array`; an absent field
reads as JS `undefined`, modelled by `none`.  `w_max` is `number | false`;
`none` models `false`. -/
structure CalcKwargs where
  calculate_ce : Bool := false
  round : Bool := true
  max_sweating : ℝ := 500
  w_max : Option ℝ := none
  max_skin_blood_flow : Option ℝ := none

/-- The caller-facing options object (typedef TwoNodesKwargs): the four
documented fields, `Object.assign`-merged over the defaults.  Fields left
at their default model an absent key. -/
structure TwoNodesKwargs where
  calculate_ce : Bool := false
  round : Bool := true
  max_sweating : ℝ := 500
  w_max : Option ℝ := none

/-- Source: `Object.assign(defaults_kwargs, kwargs)` in `two_nodes` and
`two_nodes_array`.  The positional `max_skin_blood_flow` parameter is not
copied into the object, so `kwargs.max_skin_blood_flow` stays absent
(undefined), modelled by `none`. -/
def join_kwargs (k : TwoNodesKwargs) : CalcKwargs :=
  { calculate_ce := k.calculate_ce
    round := k.round
    max_sweating := k.max_sweating
    w_max := k.w_max
    max_skin_blood_flow := none }

/-- Source: `calculate_metabolic_rate(met, wme)`. -/
def calculate_metabolic_rate (met wme : ℝ) : ℝ :=
  (met - wme) * metFactor

/-- Source: `calculate_w_max(airSpeed, clo, kwargs)`.  The JS guard is
`if (!kwargs.w_max)`: the formula runs when `w_max` is falsy (`false`,
absent, or the number 0); for any other number the local `wMax` keeps its
initialisation `0` and the supplied value is never read again. -/
def calculate_w_max (airSpeed clo : ℝ) (kwargs : CalcKwargs) : ℝ :=
  match kwargs.w_max with
  | none =>
      if clo > 0 then 0.59 * airSpeed ^ (-0.08 : ℝ)
      else 0.38 * airSpeed ^ (-0.29 : ℝ)
  | some x =>
      if x = 0 then
        (if clo > 0 then 0.59 * airSpeed ^ (-0.08 : ℝ)
         else 0.38 * airSpeed ^ (-0.29 : ℝ))
      else 0

/-- Source: `calculate_thermal_sansation(tBody, rm, wMax)`. -/
def calculate_thermal_sansation (tBody rm wMax : ℝ) : ℝ :=
  let tbmL := (0.194 / 58.15) * rm + 36.301
  let tbmH := (0.347 / 58.15) * rm + 36.669
  if tbmL ≤ tBody ∧ tBody < tbmH then (wMax * 4.7 * (tBody - tbmL)) / (tbmH - tbmL)
  else if tbmH ≤ tBody then wMax * 4.7 + 0.4685 * (tBody - tbmH)
  else 0.4685 * (tBody - tbmL)

/-- Source: `calculate_discomfort(eRsw, eComfort, eMax, wMax, eDiff, tSens)`. -/
def calculate_discomfort (eRsw eComfort eMax wMax eDiff tSens : ℝ) : ℝ :=
  let disc := (4.7 * (eRsw - eComfort)) / (eMax * wMax - eComfort - eDiff)
  if disc ≤ 0 then tSens else disc

/-- Source: `calculate_pmv_gagge(m, eReq, eComfort, eDiff)`. -/
def calculate_pmv_gagge (m eReq eComfort eDiff : ℝ) : ℝ :=
  (0.303 * Real.exp (-0.036 * m) + 0.028) * (eReq - eComfort - eDiff)

/-- Source: `calculate_pmv_set(m, eComfort, eDiff, hDS, tSkin, set, rm, cRes, qRes)`. -/
def calculate_pmv_set (m eComfort eDiff hDS tSkin setTmp rm cRes qRes : ℝ) : ℝ :=
  let drySet := hDS * (tSkin - setTmp)
  let eReqSet := rm - cRes - qRes - drySet
  (0.303 * Real.exp (-0.036 * m) + 0.028) * (eReqSet - eComfort - eDiff)

/-- Source: `calculate_percent_satisfied(tOp, v)`. -/
def calculate_percent_satisfied (tOp v : ℝ) : ℝ :=
  100 * (1.13 * Real.sqrt tOp - 0.24 * tOp + 2.7 * Real.sqrt v - 0.99 * v)

/-- Source: the boolean-as-rectifier idiom `(x > 0) * x` used for the
thermoregulatory signals. -/
def rectify (x : ℝ) : ℝ :=
  if x > 0 then x else 0

/-- One secant step of `calculate_set` (the body of its while loop, with
the fixed perturbation `delta = 0.0001`). -/
def setStep (tSkin qSkin hDS pSSk w hES : ℝ) (setOld : ℝ) : ℝ :=
  let delta : ℝ := 0.0001
  let err1 := qSkin - hDS * (tSkin - setOld) -
    w * hES * (pSSk - 0.5 * Real.exp (18.6686 - 4030.183 / (setOld + 235.0)))
  let err2 := qSkin - hDS * (tSkin - (setOld + delta)) -
    w * hES * (pSSk - 0.5 * Real.exp (18.6686 - 4030.183 / (setOld + delta + 235.0)))
  setOld - delta * err1 / (err2 - err1)

open Classical in
/-- Source: `calculate_set(tSkin, qSkin, hDS, pSSk, w, hES)`.  The source
loop `while (Math.abs(dx) > 0.01)` has no iteration cap and raises
nothing; its value is the first iterate whose step is within tolerance.
When no iterate ever meets the tolerance the JS loop never returns; the
junk value 0 stands for that case here. -/
def calculate_set (tSkin qSkin hDS pSSk w hES : ℝ) : ℝ :=
  let f := setStep tSkin qSkin hDS pSSk w hES
  let setOld := tSkin - qSkin / hDS
  if h : ∃ n, |f^[n + 1] setOld - f^[n] setOld| ≤ 0.01 then f^[Nat.find h + 1] setOld
  else 0

/-- One secant step of `calculate_et` (the body of its while loop). -/
def etStep (tSkin qSkin pSSk w hD hE : ℝ) (etOld : ℝ) : ℝ :=
  let delta : ℝ := 0.0001
  let err1 := qSkin - hD * (tSkin - etOld) -
    w * hE * (pSSk - 0.5 * Real.exp (18.6686 - 4030.183 / (etOld + 235.0)))
  let err2 := qSkin - hD * (tSkin - (etOld + delta)) -
    w * hE * (pSSk - 0.5 * Real.exp (18.6686 - 4030.183 / (etOld + delta + 235.0)))
  etOld - delta * err1 / (err2 - err1)

open Classical in
/-- Source: `calculate_et(tSkin, qSkin, pSSk, w, rA, rClo, rEa, rEcl)`.
Same uncapped secant loop as `calculate_set`, with the actual-environment
coefficients. -/
def calculate_et (tSkin qSkin pSSk w rA rClo rEa rEcl : ℝ) : ℝ :=
  let hD := 1 / (rA + rClo)
  let hE := 1 / (rEa + rEcl)
  let f := etStep tSkin qSkin pSSk w hD hE
  let etOld := tSkin - qSkin / hD
  if h : ∃ n, |f^[n + 1] etOld - f^[n] etOld| ≤ 0.01 then f^[Nat.find h + 1] etOld
  else 0

/-- The quantities recomputed by each pass of the clothing-temperature
fixed-point iteration; `hR`, `rA` and `tOp` persist into the rest of the
time step (and the next one). -/
structure TclOut where
  hR : ℝ
  rA : ℝ
  tOp : ℝ
  tCl : ℝ

/-- One pass of the clothing-surface-temperature iteration inside the
time-step loop of `calculate_two_nodes`: the radiative coefficient `hR`
(Stefan-Boltzmann linearisation, factor 0.7 sitting / 0.73 standing),
`hT`, `rA`, the operative temperature `tOp`, and the new `tCl`.
`** 3.0` on a real base with integer exponent is the cube. -/
def tclStep (bodyPosition : String) (tr tdb hCc fACl rClo tSkin : ℝ) (tCl : ℝ) : TclOut :=
  let hR := if bodyPosition = "sitting"
    then 4.0 * 0.95 * sbc * ((tCl + tr) / 2.0 + 273.15) ^ (3 : ℕ) * 0.7
    else 4.0 * 0.95 * sbc * ((tCl + tr) / 2.0 + 273.15) ^ (3 : ℕ) * 0.73
  let hT := hR + hCc
  let rA := 1.0 / (fACl * hT)
  let tOp := (hR * tr + hCc * tdb) / hT
  { hR := hR, rA := rA, tOp := tOp, tCl := (rA * tSkin + rClo * tOp) / (rA + rClo) }

/-- Source: the inner `while (!tcConverged)` loop of `calculate_two_nodes`
with `iterationLimit = 150`.  The loop exits with the freshly updated
values when `|tClNew - tCl| <= 0.01`; the throw
`new Error("Max iterations exceeded")` fires on the pass after 150
unconverged passes (the guard `nIterations > iterationLimit` runs after
the increment, so it fires exactly when a 151st pass is reached), which
is fuel exhaustion at fuel 150 here. -/
def tclLoop (bp : String) (tr tdb hCc fACl rClo tSkin : ℝ) : ℕ → ℝ → Except JsError TclOut
  | 0, _ => Except.error JsError.convergence
  | fuel + 1, tCl =>
    let o := tclStep bp tr tdb hCc fACl rClo tSkin tCl
    if |o.tCl - tCl| ≤ 0.01 then Except.ok o
    else tclLoop bp tr tdb hCc fACl rClo tSkin fuel o.tCl

/-- The skin-blood-flow clamp of the time step, lines
`if (mBl > kwargs.max_skin_blood_flow) ...; if (mBl < 0.5) ...`.
`kwargs.max_skin_blood_flow` is `undefined` (`none`) in every call made
by this module, and a JS comparison with `undefined` is false, so the
upper branch can only fire when the field is an actual number. -/
def clamp_mbl (maxSkinBloodFlow : Option ℝ) (mBl : ℝ) : ℝ :=
  let m1 := match maxSkinBloodFlow with
    | some mx => if mBl > mx then mx else mBl
    | none => mBl
  if m1 < 0.5 then 0.5 else m1

/-- Source: `alfa = 0.0417737 + 0.7451833 / (mBl + 0.585417)` at the end
of each time step. -/
def alfa_update (mBl : ℝ) : ℝ :=
  0.0417737 + 0.7451833 / (mBl + 0.585417)

/-- The quantities of `calculate_two_nodes` that are fixed before the
60-minute loop starts and read by every time step. -/
structure StepCtx where
  tdb : ℝ
  tr : ℝ
  bodyPosition : String
  vaporPressure : ℝ
  hCc : ℝ
  fACl : ℝ
  rClo : ℝ
  rm : ℝ
  qRes : ℝ
  cRes : ℝ
  wme : ℝ
  bodySurfaceArea : ℝ
  lr : ℝ
  iCl : ℝ
  wMax : ℝ
  maxSweating : ℝ
  maxSkinBloodFlow : Option ℝ
  tempBodyNeutral : ℝ

/-- The mutable variables of `calculate_two_nodes` carried across the
time-step loop (including the counter `nSimulation` and the persisted
`hR`, `rA`, `tOp` of the clothing iteration). -/
structure SimState where
  nSimulation : ℕ
  tSkin : ℝ
  tCore : ℝ
  mBl : ℝ
  eSkin : ℝ
  qSensible : ℝ
  w : ℝ
  eRsw : ℝ
  eDiff : ℝ
  eMax : ℝ
  mRsw : ℝ
  eReq : ℝ
  rEa : ℝ
  rEcl : ℝ
  alfa : ℝ
  m : ℝ
  tBody : ℝ
  hR : ℝ
  rA : ℝ
  tOp : ℝ

/-- One iteration of the `while (nSimulation < lengthTimeSimulation)` loop
of `calculate_two_nodes` (one simulated minute), lines 694-780 of
two_nodes.js. -/
def timeStep (c : StepCtx) (s : SimState) : Except JsError SimState :=
  let tCl0 := (s.rA * s.tSkin + c.rClo * s.tOp) / (s.rA + c.rClo)
  (tclLoop c.bodyPosition c.tr c.tdb c.hCc c.fACl c.rClo s.tSkin 150 tCl0).bind (fun o =>
    let qSensible := (s.tSkin - o.tOp) / (o.rA + c.rClo)
    let hfCs := (s.tCore - s.tSkin) * (5.28 + 1.163 * s.mBl)
    let sCore := s.m - hfCs - c.qRes - c.cRes - c.wme
    let sSkin := hfCs - qSensible - s.eSkin
    let tcSk := 0.97 * s.alfa * bodyWeight
    let tcCr := 0.97 * (1 - s.alfa) * bodyWeight
    let dTSk := (sSkin * c.bodySurfaceArea) / (tcSk * 60.0)
    let dTCr := (sCore * c.bodySurfaceArea) / (tcCr * 60.0)
    let tSkin := s.tSkin + dTSk
    let tCore := s.tCore + dTCr
    let tBody := s.alfa * tSkin + (1 - s.alfa) * tCore
    let skSig := tSkin - tempSkinNeutral
    let warmSk := rectify skSig
    let colds := rectify (-1.0 * skSig)
    let cRegSig := tCore - tempCoreNeutral
    let cWarm := rectify cRegSig
    let cCold := rectify (-1.0 * cRegSig)
    let bdSig := tBody - c.tempBodyNeutral
    let warmB := rectify bdSig
    let mBl := clamp_mbl c.maxSkinBloodFlow
      ((skinBloodFlowNeutral + cDil * cWarm) / (1 + cStr * colds))
    let mRsw0 := cSw * warmB * Real.exp (warmSk / 10.7)
    let mRsw1 := if mRsw0 > c.maxSweating then c.maxSweating else mRsw0
    let eRsw0 := 0.68 * mRsw1
    let rEa := 1.0 / (c.lr * c.fACl * c.hCc)
    let rEcl := c.rClo / (c.lr * c.iCl)
    let eReq := c.rm - c.qRes - c.cRes - qSensible
    let eMax := (Real.exp (18.6686 - 4030.183 / (tSkin + 235.0)) - c.vaporPressure) /
      (rEa + rEcl)
    let pRsw := eRsw0 / eMax
    let w0 := 0.06 + 0.94 * pRsw
    let eDiff0 := w0 * eMax - eRsw0
    let w1 := if w0 > c.wMax then c.wMax else w0
    let eRsw1 := if w0 > c.wMax then (c.wMax / 0.94) * eMax else eRsw0
    let eDiff1 := if w0 > c.wMax then 0.06 * (1.0 - c.wMax / 0.94) * eMax else eDiff0
    let w2 := if eMax < 0 then c.wMax else w1
    let eRsw2 := if eMax < 0 then 0 else eRsw1
    let eDiff2 := if eMax < 0 then 0 else eDiff1
    let eSkin := eRsw2 + eDiff2
    let mRsw := eRsw2 / 0.68
    let metShivering := 19.4 * colds * cCold
    let m := c.rm + metShivering
    Except.ok
      { nSimulation := s.nSimulation + 1
        tSkin := tSkin
        tCore := tCore
        mBl := mBl
        eSkin := eSkin
        qSensible := qSensible
        w := w2
        eRsw := eRsw2
        eDiff := eDiff2
        eMax := eMax
        mRsw := mRsw
        eReq := eReq
        rEa := rEa
        rEcl := rEcl
        alfa := alfa_update mBl
        m := m
        tBody := tBody
        hR := o.hR
        rA := o.rA
        tOp := o.tOp })

/-- Source: the driver loop `while (nSimulation < lengthTimeSimulation)`
with `lengthTimeSimulation = 60` and `nSimulation` starting at 0 and
incremented once per pass: exactly `fuel` passes of `timeStep` run unless
one of them throws. -/
def simLoop (ctx : StepCtx) : ℕ → SimState → Except JsError SimState
  | 0, s => Except.ok s
  | n + 1, s => (timeStep ctx s).bind (simLoop ctx n)

/-- The result record of `calculate_two_nodes` (the 18 outputs; the rounded
record returned by `two_nodes` carries the same content under snake_case
keys). -/
structure TwoNodesResult where
  set : ℝ
  eSkin : ℝ
  eRsw : ℝ
  eMax : ℝ
  qSensible : ℝ
  qSkin : ℝ
  qRes : ℝ
  tCore : ℝ
  tSkin : ℝ
  mBl : ℝ
  mRsw : ℝ
  w : ℝ
  wMax : ℝ
  et : ℝ
  pmvGagge : ℝ
  pmvSet : ℝ
  disc : ℝ
  tSens : ℝ

/-- The initial physiological state of a `calculate_two_nodes` call (the
variable initialisations before the 60-minute loop). -/
def initialState (met m0 tBody0 hR0 rA0 tOp0 : ℝ) : SimState :=
  { nSimulation := 0
    tSkin := tempSkinNeutral
    tCore := tempCoreNeutral
    mBl := skinBloodFlowNeutral
    eSkin := 0.1 * met
    qSensible := 0
    w := 0
    eRsw := 0
    eDiff := 0
    eMax := 0
    mRsw := 0
    eReq := 0
    rEa := 0
    rEcl := 0
    alfa := 0.1
    m := m0
    tBody := tBody0
    hR := hR0
    rA := rA0
    tOp := tOp0 }

/-- Source: `calculate_two_nodes(tdb, tr, v, met, clo, vaporPressure, wme,
bodySurfaceArea, pAtmospheric, bodyPosition, kwargs)`, lines 620-847 of
two_nodes.js.  Two JS artefacts are modelled explicitly: the reassignment
of the `const eComfort` binding throws a TypeError whenever the clamp
branch `if (eComfort < 0)` is taken, and the unused binding
`const ps = calculate_percent_satisfied(tOp, v)` (the only use of the raw
`v` after the air-speed clamp) is dead code with no effect on the returned
record and is omitted. -/
def calculate_two_nodes (tdb tr v met clo vaporPressure wme bodySurfaceArea pAtmospheric : ℝ)
    (bodyPosition : String) (kwargs : CalcKwargs) : Except JsError TwoNodesResult :=
  let airSpeed := max v 0.1
  let alfa : ℝ := 0.1
  let tempBodyNeutral := alfa * tempSkinNeutral + (1 - alfa) * tempCoreNeutral
  let pressureInAtmospheres := pAtmospheric / 101325
  let rClo := 0.155 * clo
  let fACl := 1.0 + 0.15 * clo
  let lr := 2.2 / pressureInAtmospheres
  let rm := calculate_metabolic_rate met wme
  let m := met * metFactor
  let eComfort := 0.42 * (rm - metFactor)
  if eComfort < 0 then Except.error JsError.typeError else
  let iCl := if clo > 0 then (0.45 : ℝ) else 1.0
  let wMax := calculate_w_max airSpeed clo kwargs
  let hCc0 := 3.0 * pressureInAtmospheres ^ (0.53 : ℝ)
  let hFc := 8.600001 * (airSpeed * pressureInAtmospheres) ^ (0.53 : ℝ)
  let hCc1 := max hCc0 hFc
  let hCc := if kwargs.calculate_ce = false ∧ met > 0.85 then
      max hCc1 (5.66 * (met - 0.85) ^ (0.39 : ℝ)) else hCc1
  let hR : ℝ := 4.7
  let hT := hR + hCc
  let rA := 1.0 / (fACl * hT)
  let tOp := (hR * tr + hCc * tdb) / hT
  let tBody := alfa * tempSkinNeutral + (1 - alfa) * tempCoreNeutral
  let qRes := 0.0023 * m * (44.0 - vaporPressure)
  let cRes := 0.0014 * m * (34.0 - tdb)
  let ctx : StepCtx :=
    { tdb := tdb
      tr := tr
      bodyPosition := bodyPosition
      vaporPressure := vaporPressure
      hCc := hCc
      fACl := fACl
      rClo := rClo
      rm := rm
      qRes := qRes
      cRes := cRes
      wme := wme
      bodySurfaceArea := bodySurfaceArea
      lr := lr
      iCl := iCl
      wMax := wMax
      maxSweating := kwargs.max_sweating
      maxSkinBloodFlow := kwargs.max_skin_blood_flow
      tempBodyNeutral := tempBodyNeutral }
  (simLoop ctx 60 (initialState met m tBody hR rA tOp)).bind (fun s =>
    let qSkin := s.qSensible + s.eSkin
    let pSSk := Real.exp (18.6686 - 4030.183 / (s.tSkin + 235.0))
    let hRS := s.hR
    let hCS0 := 3.0 * pressureInAtmospheres ^ (0.53 : ℝ)
    let hCS1 := if kwargs.calculate_ce = false ∧ met > 0.85 then
        max hCS0 (5.66 * (met - 0.85) ^ (0.39 : ℝ)) else hCS0
    let hCS := if hCS1 < 3.0 then 3.0 else hCS1
    let hTS := hCS + hRS
    let rCloS := 1.52 / (met - wme / metFactor + 0.6944) - 0.1835
    let rClS := 0.155 * rCloS
    let fAClS := 1.0 + kClo * rCloS
    let fClS := 1.0 / (1.0 + 0.155 * fAClS * hTS * rCloS)
    let iMS : ℝ := 0.45
    let iClS := iMS * (hCS / hTS) * ((1 - fClS) / (hCS / hTS - fClS * iMS))
    let rAS := 1.0 / (fAClS * hTS)
    let rEaS := 1.0 / (lr * fAClS * hCS)
    let rEclS := rClS / (lr * iClS)
    let hDS := 1.0 / (rAS + rClS)
    let hES := 1.0 / (rEaS + rEclS)
    let setV := calculate_set s.tSkin qSkin hDS pSSk s.w hES
    let etV := calculate_et s.tSkin qSkin pSSk s.w s.rA rClo s.rEa s.rEcl
    let tSens := calculate_thermal_sansation s.tBody rm wMax
    let disc := calculate_discomfort s.eRsw eComfort s.eMax wMax s.eDiff tSens
    let pmvGagge := calculate_pmv_gagge s.m s.eReq eComfort s.eDiff
    let pmvSet := calculate_pmv_set s.m eComfort s.eDiff hDS s.tSkin setV rm cRes qRes
    Except.ok
      { set := setV
        eSkin := s.eSkin
        eRsw := s.eRsw
        eMax := s.eMax
        qSensible := s.qSensible
        qSkin := qSkin
        qRes := qRes
        tCore := s.tCore
        tSkin := s.tSkin
        mBl := s.mBl
        mRsw := s.mRsw
        w := s.w
        wMax := wMax
        et := etV
        pmvGagge := pmvGagge
        pmvSet := pmvSet
        disc := disc
        tSens := tSens })

/-- Rounding of the result record to 1 decimal per field, as done by
`two_nodes` when `kwargs.round` is set. -/
def roundResult (r : TwoNodesResult) : TwoNodesResult :=
  { set := roundDec 1 r.set
    eSkin := roundDec 1 r.eSkin
    eRsw := roundDec 1 r.eRsw
    eMax := roundDec 1 r.eMax
    qSensible := roundDec 1 r.qSensible
    qSkin := roundDec 1 r.qSkin
    qRes := roundDec 1 r.qRes
    tCore := roundDec 1 r.tCore
    tSkin := roundDec 1 r.tSkin
    mBl := roundDec 1 r.mBl
    mRsw := roundDec 1 r.mRsw
    w := roundDec 1 r.w
    wMax := roundDec 1 r.wMax
    et := roundDec 1 r.et
    pmvGagge := roundDec 1 r.pmvGagge
    pmvSet := roundDec 1 r.pmvSet
    disc := roundDec 1 r.disc
    tSens := roundDec 1 r.tSens }

/-- Source: `two_nodes(tdb, tr, v, rh, met, clo, wme, body_surface_area,
p_atmospheric, body_position, max_skin_blood_flow, kwargs)`, lines
105-166.  Note that the positional `max_skin_blood_flow` parameter is
accepted but never forwarded: `calculate_two_nodes` receives only
`joint_kwargs`, which does not contain a `max_skin_blood_flow` key. -/
def two_nodes (tdb tr v rh met clo : ℝ) (wme : ℝ := 0)
    (body_surface_area : ℝ := 1.8258) (p_atmospheric : ℝ := 101325)
    (body_position : String := "standing") (max_skin_blood_flow : ℝ := 90)
    (kwargs : TwoNodesKwargs := {}) : Except JsError TwoNodesResult :=
  let joint_kwargs := join_kwargs kwargs
  let vapor_pressure := cal_vapor_pressure tdb rh
  (calculate_two_nodes tdb tr v met clo vapor_pressure wme body_surface_area
      p_atmospheric body_position joint_kwargs).map
    (fun r => if joint_kwargs.round then roundResult r else r)

/-- The result record of `two_nodes_array`: the 18 per-field arrays. -/
structure TwoNodesArrayResult where
  e_skin : List ℝ
  e_rsw : List ℝ
  e_max : List ℝ
  q_sensible : List ℝ
  q_skin : List ℝ
  q_res : List ℝ
  t_core : List ℝ
  t_skin : List ℝ
  m_bl : List ℝ
  m_rsw : List ℝ
  w : List ℝ
  w_max : List ℝ
  set : List ℝ
  et : List ℝ
  pmv_gagge : List ℝ
  pmv_set : List ℝ
  disc : List ℝ
  t_sens : List ℝ

/-- Collect the per-element records of the `two_nodes_array` index loop
into per-field arrays. -/
def collectResults (rs : List TwoNodesResult) : TwoNodesArrayResult :=
  { e_skin := rs.map TwoNodesResult.eSkin
    e_rsw := rs.map TwoNodesResult.eRsw
    e_max := rs.map TwoNodesResult.eMax
    q_sensible := rs.map TwoNodesResult.qSensible
    q_skin := rs.map TwoNodesResult.qSkin
    q_res := rs.map TwoNodesResult.qRes
    t_core := rs.map TwoNodesResult.tCore
    t_skin := rs.map TwoNodesResult.tSkin
    m_bl := rs.map TwoNodesResult.mBl
    m_rsw := rs.map TwoNodesResult.mRsw
    w := rs.map TwoNodesResult.w
    w_max := rs.map TwoNodesResult.wMax
    set := rs.map TwoNodesResult.set
    et := rs.map TwoNodesResult.et
    pmv_gagge := rs.map TwoNodesResult.pmvGagge
    pmv_set := rs.map TwoNodesResult.pmvSet
    disc := rs.map TwoNodesResult.disc
    t_sens := rs.map TwoNodesResult.tSens }

/-- Per-field rounding of the array result (the `roundArray` calls of
`two_nodes_array`). -/
def roundArrayResult (r : TwoNodesArrayResult) : TwoNodesArrayResult :=
  { e_skin := roundArray r.e_skin 1
    e_rsw := roundArray r.e_rsw 1
    e_max := roundArray r.e_max 1
    q_sensible := roundArray r.q_sensible 1
    q_skin := roundArray r.q_skin 1
    q_res := roundArray r.q_res 1
    t_core := roundArray r.t_core 1
    t_skin := roundArray r.t_skin 1
    m_bl := roundArray r.m_bl 1
    m_rsw := roundArray r.m_rsw 1
    w := roundArray r.w 1
    w_max := roundArray r.w_max 1
    set := roundArray r.set 1
    et := roundArray r.et 1
    pmv_gagge := roundArray r.pmv_gagge 1
    pmv_set := roundArray r.pmv_set 1
    disc := roundArray r.disc 1
    t_sens := roundArray r.t_sens 1 }

/-- Source: `two_nodes_array(tdbArray, ..., kwargs)`, lines 220-348.
Indexing `arr[index]` is written `List.getD` (every call of interest
stays in bounds; out-of-range JS access would produce `undefined`).
A throw from any element aborts the whole call, hence the `mapM`. -/
def two_nodes_array (tdbArray trArray vArray rhArray metArray cloArray : List ℝ)
    (wme : List ℝ := [0]) (body_surface_area : List ℝ := [1.8258])
    (p_atmospheric : List ℝ := [101325]) (body_position : List String := ["standing"])
    (max_skin_blood_flow : List ℝ := [90]) (kwargs : TwoNodesKwargs := {}) :
    Except JsError TwoNodesArrayResult :=
  let joint_kwargs := join_kwargs kwargs
  let vaporPressureArray :=
    (List.range rhArray.length).map
      (fun i => cal_vapor_pressure (tdbArray.getD i 0) (rhArray.getD i 0))
  let wmeArray := fill_array wme tdbArray
  let bodySurfaceArray := fill_array body_surface_area tdbArray
  let pAtmArray := fill_array p_atmospheric tdbArray
  let bodyPositionArray := fill_array body_position tdbArray
  let _maxSkinBloodFlowArray := fill_array max_skin_blood_flow tdbArray
  ((List.range tdbArray.length).mapM
      (fun i => calculate_two_nodes (tdbArray.getD i 0) (trArray.getD i 0)
        (vArray.getD i 0) (metArray.getD i 0) (cloArray.getD i 0)
        (vaporPressureArray.getD i 0) (wmeArray.getD i 0)
        (bodySurfaceArray.getD i 0) (pAtmArray.getD i 0)
        (bodyPositionArray.getD i "standing") joint_kwargs)).map
    (fun rs =>
      if joint_kwargs.round then roundArrayResult (collectResults rs)
      else collectResults rs)

/-! ### Helper lemmas -/

/-- The blood-flow clamp always enforces the lower bound 0.5, whatever the
upper field holds. -/
lemma clamp_mbl_lower (cap : Option ℝ) (x : ℝ) : 0.5 ≤ clamp_mbl cap x := by
  simp only [clamp_mbl]
  split
  · norm_num
  · next h => exact le_of_not_lt h

/-- The empirical alfa regression sends any blood flow at least 0.5 into
the open unit interval. -/
lemma alfa_update_bounds (m : ℝ) (h : 0.5 ≤ m) :
    0 < alfa_update m ∧ alfa_update m < 1 := by
  unfold alfa_update
  have hd : (0 : ℝ) < m + 0.585417 := by linarith
  constructor
  · have : 0 < 0.7451833 / (m + 0.585417) := by positivity
    linarith
  · have h3 : 0.7451833 / (m + 0.585417) < 0.9582263 := by
      rw [div_lt_iff₀ hd]
      linarith
    linarith

/-! ### Claim theorems -/

/-- Claim C8: the skin/core mass-weighting fraction alfa is initialised to
0.1 and, after every time-step update, the value
`0.0417737 + 0.7451833 / (mBl + 0.585417)` computed from the clamped blood
flow lies strictly between 0 and 1, for every reachable state. -/
theorem alfa_stays_in_unit_interval :
    (∀ met m0 tBody0 hR0 rA0 tOp0 : ℝ,
        (initialState met m0 tBody0 hR0 rA0 tOp0).alfa = 0.1 ∧
        (0 : ℝ) < (initialState met m0 tBody0 hR0 rA0 tOp0).alfa ∧
        (initialState met m0 tBody0 hR0 rA0 tOp0).alfa < 1) ∧
    ∀ (c : StepCtx) (s : SimState),
      match timeStep c s with
      | Except.ok s2 => 0 < s2.alfa ∧ s2.alfa < 1
      | Except.error _ => True := by
  constructor
  · intro met m0 tBody0 hR0 rA0 tOp0
    refine ⟨rfl, by norm_num [initialState], by norm_num [initialState]⟩
  · intro c s
    unfold timeStep
    cases htcl : tclLoop c.bodyPosition c.tr c.tdb c.hCc c.fACl c.rClo s.tSkin 150
        ((s.rA * s.tSkin + c.rClo * s.tOp) / (s.rA + c.rClo)) with
    | error e => simp [htcl, Except.bind]
    | ok o =>
      simp only [htcl, Except.bind]
      exact alfa_update_bounds _ (clamp_mbl_lower _ _)

/-- Claim C1 (code bug): the upper skin-blood-flow clamp compares against
`kwargs.max_skin_blood_flow`, but the kwargs object built by `two_nodes`
(and `two_nodes_array`) never contains that key — the positional
`max_skin_blood_flow` parameter is dropped — so the comparison is with
`undefined` and the clamp never fires: a candidate blood flow of 126.3
passes through unchanged, above the default limit 90. -/
theorem mbl_upper_clamp_inert :
    (∀ k : TwoNodesKwargs, (join_kwargs k).max_skin_blood_flow = none) ∧
      clamp_mbl none 126.3 = 126.3 ∧ (90 : ℝ) < 126.3 := by
  refine ⟨fun k => rfl, ?_, by norm_num⟩
  simp only [clamp_mbl]
  rw [if_neg (by norm_num)]

/-- Claim C2 (code bug): when `w_max` is supplied as a nonzero number, the
guard `if (!kwargs.w_max)` skips the formula and the local `wMax` keeps its
initialisation 0 — the supplied value 0.7 is never used. -/
theorem calculate_w_max_drops_supplied_value :
    calculate_w_max 0.3 0.5 { w_max := some 0.7 } = 0 := by
  simp only [calculate_w_max]
  rw [if_neg (by norm_num)]

/-- Claim C3 (code bug): whenever `rm < 58.2` (met − wme < 1 met), the
clamp branch `if (eComfort < 0) { eComfort = 0; }` assigns to the `const`
binding `eComfort`, which throws a TypeError, so the call fails instead of
returning with eComfort = 0; here at met = 0.8. -/
theorem ecomfort_const_reassignment_throws (vp : ℝ) :
    calculate_two_nodes 25 25 0.3 0.8 0.5 vp 0 1.8258 101325 "standing" {} =
      Except.error JsError.typeError := by
  unfold calculate_two_nodes
  rw [if_pos (by norm_num [calculate_metabolic_rate, metFactor])]

/-- A successful time step increments the minute counter by exactly one. -/
lemma timeStep_nSimulation (c : StepCtx) (s : SimState) :
    ∀ s2, timeStep c s = Except.ok s2 → s2.nSimulation = s.nSimulation + 1 := by
  intro s2 h
  unfold timeStep at h
  cases htcl : tclLoop c.bodyPosition c.tr c.tdb c.hCc c.fACl c.rClo s.tSkin 150
      ((s.rA * s.tSkin + c.rClo * s.tOp) / (s.rA + c.rClo)) with
  | error e => simp [htcl, Except.bind] at h
  | ok o =>
    simp only [htcl, Except.bind, Except.ok.injEq] at h
    subst h
    rfl

/-- A successful run of the driver loop with fuel `n` advances the minute
counter by exactly `n`. -/
lemma simLoop_nSimulation (c : StepCtx) :
    ∀ (n : ℕ) (s : SimState),
      match simLoop c n s with
      | Except.ok s2 => s2.nSimulation = s.nSimulation + n
      | Except.error _ => True := by
  intro n
  induction n with
  | zero => intro s; simp [simLoop]
  | succ n ih =>
    intro s
    simp only [simLoop]
    cases hstep : timeStep c s with
    | error e => simp [Except.bind]
    | ok s1 =>
      simp only [Except.bind]
      have h1 := timeStep_nSimulation c s s1 hstep
      have h2 := ih s1
      cases hrest : simLoop c n s1 with
      | error e => simp
      | ok s2 =>
        rw [hrest] at h2
        simp only at h2 ⊢
        omega

/-- A run of the clothing-temperature loop that converges on its very
first pass returns that pass's values. -/
lemma tclLoop_ok_of_first (bp : String) (tr tdb hCc fACl rClo tSkin : ℝ) (fuel : ℕ) (t0 : ℝ)
    (h : |(tclStep bp tr tdb hCc fACl rClo tSkin t0).tCl - t0| ≤ 0.01) :
    tclLoop bp tr tdb hCc fACl rClo tSkin (fuel + 1) t0 =
      Except.ok (tclStep bp tr tdb hCc fACl rClo tSkin t0) := by
  simp only [tclLoop]
  rw [if_pos h]

/-- On a context with zero clothing resistance and zero body surface area,
a time step from a neutral-skin state with nonzero air resistance
succeeds and preserves those two state facts (the clothing iteration is
stationary at tSkin and the temperature updates vanish).  This exhibits
concrete inputs on which the driver loop actually completes. -/
lemma timeStep_ok_demo (c : StepCtx) (s : SimState)
    (hbp : c.bodyPosition = "standing") (htr : c.tr = 25) (hhcc : c.hCc = 3)
    (hfacl : c.fACl = 1) (hrclo : c.rClo = 0) (hbsa : c.bodySurfaceArea = 0)
    (hskin : s.tSkin = 33.7) (hra : s.rA ≠ 0) :
    ∃ s2, timeStep c s = Except.ok s2 ∧ s2.tSkin = 33.7 ∧ s2.rA ≠ 0 ∧
      s2.nSimulation = s.nSimulation + 1 := by
  have harApos : (0 : ℝ) <
      4.0 * 0.95 * sbc * ((33.7 + 25) / 2.0 + 273.15) ^ (3 : ℕ) * 0.73 + 3 := by
    norm_num [sbc]
  have hrA2 : (tclStep "standing" 25 c.tdb 3 1 0 33.7 33.7).rA ≠ 0 := by
    simp only [tclStep]
    rw [if_neg (by decide)]
    norm_num [sbc]
  have htcl2 : (tclStep "standing" 25 c.tdb 3 1 0 33.7 33.7).tCl = 33.7 := by
    simp only [tclStep]
    rw [if_neg (by decide)]
    rw [zero_mul, add_zero, add_zero, one_mul]
    exact mul_div_cancel_left₀ _ (by positivity)
  have htcl0 : (s.rA * (33.7 : ℝ) + 0 * s.tOp) / (s.rA + 0) = 33.7 := by
    rw [zero_mul, add_zero, add_zero]
    exact mul_div_cancel_left₀ _ hra
  have hloop : tclLoop "standing" 25 c.tdb 3 1 0 33.7 150 33.7 =
      Except.ok (tclStep "standing" 25 c.tdb 3 1 0 33.7 33.7) :=
    tclLoop_ok_of_first "standing" 25 c.tdb 3 1 0 33.7 149 33.7
      (by rw [htcl2]; norm_num)
  simp only [timeStep]
  rw [hbp, htr, hhcc, hfacl, hrclo, hskin, htcl0, hloop]
  simp only [Except.bind]
  refine ⟨_, rfl, ?_, hrA2, rfl⟩
  simp only [hbsa, mul_zero, zero_div, add_zero]

/-- On the degenerate demo context, the driver loop completes any number
of steps, counting them. -/
lemma simLoop_ok_demo (c : StepCtx)
    (hbp : c.bodyPosition = "standing") (htr : c.tr = 25) (hhcc : c.hCc = 3)
    (hfacl : c.fACl = 1) (hrclo : c.rClo = 0) (hbsa : c.bodySurfaceArea = 0) :
    ∀ (n : ℕ) (s : SimState), s.tSkin = 33.7 → s.rA ≠ 0 →
      ∃ s2, simLoop c n s = Except.ok s2 ∧ s2.nSimulation = s.nSimulation + n := by
  intro n
  induction n with
  | zero => intro s h1 h2; exact ⟨s, rfl, by omega⟩
  | succ n ih =>
    intro s h1 h2
    obtain ⟨s1, hs1, hskin1, hra1, hn1⟩ :=
      timeStep_ok_demo c s hbp htr hhcc hfacl hrclo hbsa h1 h2
    obtain ⟨s2, hs2, hn2⟩ := ih s1 hskin1 hra1
    refine ⟨s2, ?_, by omega⟩
    simp only [simLoop, hs1, Except.bind, hs2]

/-- There are concrete inputs on which the 60-step driver loop completes
with the counter at 60 (so the counting statement of the driver loop is
not vacuous). -/
lemma simLoop_sixty_reachable :
    ∃ (c : StepCtx) (s0 s : SimState),
      simLoop c 60 s0 = Except.ok s ∧ s.nSimulation = 60 := by
  obtain ⟨s2, hs2, hn⟩ :=
    simLoop_ok_demo
      { tdb := 25, tr := 25, bodyPosition := "standing", vaporPressure := 0, hCc := 3,
        fACl := 1, rClo := 0, rm := 0, qRes := 0, cRes := 0, wme := 0, bodySurfaceArea := 0,
        lr := 1, iCl := 1, wMax := 0.5, maxSweating := 500, maxSkinBloodFlow := none,
        tempBodyNeutral := 36.49 }
      rfl rfl rfl rfl rfl rfl 60
      { nSimulation := 0, tSkin := 33.7, tCore := 36.8, mBl := 6.3, eSkin := 0, qSensible := 0,
        w := 0, eRsw := 0, eDiff := 0, eMax := 0, mRsw := 0, eReq := 0, rEa := 0, rEcl := 0,
        alfa := 0.1, m := 0, tBody := 36.49, hR := 4.7, rA := 1, tOp := 25 }
      rfl one_ne_zero
  exact ⟨_, _, s2, hs2, by simpa using hn⟩

/-- Claim C7: the initial state starts the minute counter at 0; any
completed run of the 60-iteration driver loop of `calculate_two_nodes`
has executed the time-step update exactly 60 times (the counter increments
once per executed update), for every context and start state — the count
never depends on the inputs; and completed runs exist, so the count is
attained. -/
theorem sim_loop_runs_exactly_sixty_steps :
    (∀ met m0 tBody0 hR0 rA0 tOp0 : ℝ,
        (initialState met m0 tBody0 hR0 rA0 tOp0).nSimulation = 0) ∧
    (∀ (c : StepCtx) (s0 : SimState),
      match simLoop c 60 s0 with
      | Except.ok s => s.nSimulation = s0.nSimulation + 60
      | Except.error _ => True) ∧
    ∃ (c : StepCtx) (s0 s : SimState),
      simLoop c 60 s0 = Except.ok s ∧ s.nSimulation = 60 :=
  ⟨fun _ _ _ _ _ _ => rfl, fun c s0 => simLoop_nSimulation c 60 s0, simLoop_sixty_reachable⟩

/-- Claim C9: `fill_array` broadcasts an under-length array to the primary
length by repeating its first element (pointwise, every slot holds the
head), and leaves an array already at least the primary length unchanged. -/
theorem fill_array_broadcast (xs tdbA : List ℝ) :
    (fill_array xs tdbA).length = max xs.length tdbA.length ∧
    (∀ i : Fin tdbA.length,
      (fill_array xs tdbA).getD i 0 =
        if xs.length < tdbA.length then xs.headI else xs.getD i 0) ∧
    (tdbA.length ≤ xs.length → fill_array xs tdbA = xs) := by
  refine ⟨?_, ?_, ?_⟩
  · unfold fill_array
    split
    · next h => simp [Nat.max_eq_right (Nat.le_of_lt h)]
    · next h => simp [Nat.max_eq_left (Nat.le_of_not_lt h)]
  · intro i
    unfold fill_array
    split
    · next h =>
      rw [List.getD_eq_getElem _ _ (by simpa using i.isLt)]
      simp
    · next h => rfl
  · intro h
    unfold fill_array
    rw [if_neg (by omega)]

/-- Witness for claim C9: a length-1 array is broadcast to length 2 by
repetition, and an array at least as long as the primary is returned
unchanged. -/
theorem fill_array_broadcast_witness :
    ([(5 : ℝ)].length ≤ [(1 : ℝ), 2].length) ∧ fill_array [(1 : ℝ), 2] [(5 : ℝ)] = [1, 2] :=
  ⟨by decide, (fill_array_broadcast [(1 : ℝ), 2] [(5 : ℝ)]).2.2 (by decide)⟩

/-- Shift lemma for loop unrollings: iterating from the first update is one
more iterate from the start. -/
lemma iterate_shift (g : ℝ → ℝ) (k : ℕ) (t : ℝ) : g^[k] (g t) = g^[k + 1] t :=
  (Function.iterate_succ_apply g k t).symm

/-- The clothing-temperature loop only ever throws its convergence error. -/
lemma tclLoop_error_val (bp : String) (tr tdb hCc fACl rClo tSkin : ℝ) :
    ∀ (fuel : ℕ) (t0 : ℝ) (e : JsError),
      tclLoop bp tr tdb hCc fACl rClo tSkin fuel t0 = Except.error e →
        e = JsError.convergence := by
  intro fuel
  induction fuel with
  | zero =>
    intro t0 e h
    simp only [tclLoop, Except.error.injEq] at h
    exact h.symm
  | succ n ih =>
    intro t0 e h
    simp only [tclLoop] at h
    split at h
    · exact absurd h (by simp)
    · exact ih _ e h

/-- The clothing-temperature loop errors out exactly on runs whose first
`fuel` passes each move tCl by more than the 0.01 tolerance. -/
lemma tclLoop_error_iff (bp : String) (tr tdb hCc fACl rClo tSkin : ℝ) :
    ∀ (fuel : ℕ) (t0 : ℝ),
      tclLoop bp tr tdb hCc fACl rClo tSkin fuel t0 = Except.error JsError.convergence ↔
        ∀ k, k < fuel →
          0.01 <
            |(fun t => (tclStep bp tr tdb hCc fACl rClo tSkin t).tCl)^[k + 1] t0 -
              (fun t => (tclStep bp tr tdb hCc fACl rClo tSkin t).tCl)^[k] t0| := by
  intro fuel
  induction fuel with
  | zero => intro t0; simp [tclLoop]
  | succ n ih =>
    intro t0
    simp only [tclLoop]
    split
    · next h =>
      constructor
      · intro hfalse; exact absurd hfalse (by simp)
      · intro hall
        have h0 := hall 0 (Nat.succ_pos n)
        simp only [zero_add, Function.iterate_one, Function.iterate_zero, id_eq] at h0
        exact absurd h (not_le.mpr h0)
    · next h =>
      rw [ih ((tclStep bp tr tdb hCc fACl rClo tSkin t0).tCl)]
      constructor
      · intro hall k hk
        cases k with
        | zero =>
          simp only [zero_add, Function.iterate_one, Function.iterate_zero, id_eq]
          exact not_le.mp h
        | succ j =>
          have hj := hall j (by omega)
          rw [iterate_shift (fun t => (tclStep bp tr tdb hCc fACl rClo tSkin t).tCl) j t0,
            iterate_shift (fun t => (tclStep bp tr tdb hCc fACl rClo tSkin t).tCl) (j + 1) t0]
            at hj
          exact hj
      · intro hall k hk
        have hk1 := hall (k + 1) (by omega)
        rw [← iterate_shift (fun t => (tclStep bp tr tdb hCc fACl rClo tSkin t).tCl) k t0,
          ← iterate_shift (fun t => (tclStep bp tr tdb hCc fACl rClo tSkin t).tCl) (k + 1) t0]
          at hk1
        exact hk1

/-- A successful run of the clothing-temperature loop exits at the first
pass within fuel whose update moved tCl by at most 0.01, returning the
values computed by that pass. -/
lemma tclLoop_ok_spec (bp : String) (tr tdb hCc fACl rClo tSkin : ℝ) :
    ∀ (fuel : ℕ) (t0 : ℝ) (o : TclOut),
      tclLoop bp tr tdb hCc fACl rClo tSkin fuel t0 = Except.ok o →
        ∃ k, k < fuel ∧
          o = tclStep bp tr tdb hCc fACl rClo tSkin
              ((fun t => (tclStep bp tr tdb hCc fACl rClo tSkin t).tCl)^[k] t0) ∧
          |(fun t => (tclStep bp tr tdb hCc fACl rClo tSkin t).tCl)^[k + 1] t0 -
              (fun t => (tclStep bp tr tdb hCc fACl rClo tSkin t).tCl)^[k] t0| ≤ 0.01 ∧
          ∀ j, j < k →
            0.01 <
              |(fun t => (tclStep bp tr tdb hCc fACl rClo tSkin t).tCl)^[j + 1] t0 -
                (fun t => (tclStep bp tr tdb hCc fACl rClo tSkin t).tCl)^[j] t0| := by
  intro fuel
  induction fuel with
  | zero => intro t0 o h; exact absurd h (by simp [tclLoop])
  | succ n ih =>
    intro t0 o h
    simp only [tclLoop] at h
    split at h
    · next hconv =>
      refine ⟨0, Nat.succ_pos n, ?_, ?_, fun j hj => absurd hj (by omega)⟩
      · simp only [Except.ok.injEq] at h
        subst h
        simp
      · simpa using hconv
    · next hconv =>
      obtain ⟨k, hk, ho, hle, hmin⟩ := ih ((tclStep bp tr tdb hCc fACl rClo tSkin t0).tCl) o h
      rw [iterate_shift (fun t => (tclStep bp tr tdb hCc fACl rClo tSkin t).tCl) k t0] at ho
      rw [iterate_shift (fun t => (tclStep bp tr tdb hCc fACl rClo tSkin t).tCl) k t0,
        iterate_shift (fun t => (tclStep bp tr tdb hCc fACl rClo tSkin t).tCl) (k + 1) t0]
        at hle
      refine ⟨k + 1, by omega, ho, hle, ?_⟩
      intro j hj
      cases j with
      | zero =>
        simp only [zero_add, Function.iterate_one, Function.iterate_zero, id_eq]
        exact not_le.mp hconv
      | succ i =>
        have hi := hmin i (by omega)
        rw [iterate_shift (fun t => (tclStep bp tr tdb hCc fACl rClo tSkin t).tCl) i t0,
          iterate_shift (fun t => (tclStep bp tr tdb hCc fACl rClo tSkin t).tCl) (i + 1) t0]
          at hi
        exact hi

/-- Claim C6: within each time step, the clothing-surface-temperature
fixed-point iteration (cap 150) raises the fatal convergence error exactly
when its first 150 passes all move tCl by more than 0.01 °C (the throw
happens on the pass after 150 unconverged ones and is not retried);
otherwise it exits at the first pass whose successive tCl values differ by
at most 0.01, with the values of that pass. -/
theorem tcl_inner_loop_convergence_spec (bp : String) (tr tdb hCc fACl rClo tSkin t0 : ℝ) :
    match tclLoop bp tr tdb hCc fACl rClo tSkin 150 t0 with
    | Except.error e =>
        e = JsError.convergence ∧
        ∀ k : Fin 150,
          0.01 <
            |(fun t => (tclStep bp tr tdb hCc fACl rClo tSkin t).tCl)^[(k : ℕ) + 1] t0 -
              (fun t => (tclStep bp tr tdb hCc fACl rClo tSkin t).tCl)^[(k : ℕ)] t0|
    | Except.ok o =>
        ∃ k : Fin 150,
          o = tclStep bp tr tdb hCc fACl rClo tSkin
              ((fun t => (tclStep bp tr tdb hCc fACl rClo tSkin t).tCl)^[(k : ℕ)] t0) ∧
          |(fun t => (tclStep bp tr tdb hCc fACl rClo tSkin t).tCl)^[(k : ℕ) + 1] t0 -
              (fun t => (tclStep bp tr tdb hCc fACl rClo tSkin t).tCl)^[(k : ℕ)] t0| ≤ 0.01 ∧
          ∀ j : Fin (k : ℕ),
            0.01 <
              |(fun t => (tclStep bp tr tdb hCc fACl rClo tSkin t).tCl)^[(j : ℕ) + 1] t0 -
                (fun t => (tclStep bp tr tdb hCc fACl rClo tSkin t).tCl)^[(j : ℕ)] t0| := by
  cases h : tclLoop bp tr tdb hCc fACl rClo tSkin 150 t0 with
  | error e =>
    have he := tclLoop_error_val bp tr tdb hCc fACl rClo tSkin 150 t0 e h
    subst he
    exact ⟨rfl, fun k =>
      ((tclLoop_error_iff bp tr tdb hCc fACl rClo tSkin 150 t0).mp h) k k.isLt⟩
  | ok o =>
    obtain ⟨k, hk, ho, hle, hmin⟩ := tclLoop_ok_spec bp tr tdb hCc fACl rClo tSkin 150 t0 o h
    exact ⟨⟨k, hk⟩, ho, hle, fun j => hmin j j.isLt⟩

/-- Claim C5: calling `two_nodes_array` with every parameter wrapped as a
length-1 array produces, at element 0 of every output field, exactly the
value returned by `two_nodes` on the scalar tuple (the same rounding
applies on both paths; a throw on one path is a throw on the other). -/
theorem array_scalar_equivalence
    (tdb tr v rh met clo wme bsa patm : ℝ) (pos : String) (msbf : ℝ)
    (k : TwoNodesKwargs) :
    two_nodes_array [tdb] [tr] [v] [rh] [met] [clo] [wme] [bsa] [patm] [pos] [msbf] k =
      (two_nodes tdb tr v rh met clo wme bsa patm pos msbf k).map
        (fun r =>
          { e_skin := [r.eSkin]
            e_rsw := [r.eRsw]
            e_max := [r.eMax]
            q_sensible := [r.qSensible]
            q_skin := [r.qSkin]
            q_res := [r.qRes]
            t_core := [r.tCore]
            t_skin := [r.tSkin]
            m_bl := [r.mBl]
            m_rsw := [r.mRsw]
            w := [r.w]
            w_max := [r.wMax]
            set := [r.set]
            et := [r.et]
            pmv_gagge := [r.pmvGagge]
            pmv_set := [r.pmvSet]
            disc := [r.disc]
            t_sens := [r.tSens] }) := by
  cases hc : calculate_two_nodes tdb tr v met clo (cal_vapor_pressure tdb rh) wme bsa
      patm pos (join_kwargs k) with
  | error e =>
    simp [two_nodes_array, two_nodes, fill_array, hc, List.range_succ, Except.map,
      Except.bind, List.mapM.loop]
  | ok r =>
    cases hr : (join_kwargs k).round with
    | false =>
      simp [two_nodes_array, two_nodes, fill_array, hc, hr, List.range_succ, Except.map,
        Except.bind, List.mapM.loop, collectResults]
    | true =>
      simp [two_nodes_array, two_nodes, fill_array, hc, hr, List.range_succ, Except.map,
        Except.bind, List.mapM.loop, collectResults, roundArrayResult,
        roundArray, roundResult]

/-- Claim C10: air speed is clamped to a minimum of 0.1 m/s before any
use with effect on the result (the raw `v` reappears only in the dead
percent-satisfied binding), so any `v ≤ 0.1` produces the very record of
`v = 0.1`, and hence any two inputs at most 0.1 agree. -/
theorem air_speed_clamped_at_point_one
    (tdb tr v rh met clo wme bsa patm : ℝ) (pos : String) (msbf : ℝ)
    (k : TwoNodesKwargs) (hv : v ≤ 0.1) :
    two_nodes tdb tr v rh met clo wme bsa patm pos msbf k =
      two_nodes tdb tr 0.1 rh met clo wme bsa patm pos msbf k := by
  unfold two_nodes calculate_two_nodes
  rw [max_eq_right hv, max_self]

/-- Witness for claim C10: a concrete application at v = 0.05. -/
theorem air_speed_clamped_at_point_one_witness :
    (0.05 : ℝ) ≤ 0.1 ∧
      two_nodes 25 25 0.05 50 1.2 0.5 0 1.8258 101325 "standing" 90 {} =
        two_nodes 25 25 0.1 50 1.2 0.5 0 1.8258 101325 "standing" 90 {} :=
  ⟨by norm_num,
    air_speed_clamped_at_point_one 25 25 0.05 50 1.2 0.5 0 1.8258 101325 "standing" 90 {}
      (by norm_num)⟩

end

end TwoNodesModel
